import Mathlib

/-!
Verification development for the Health_App repository: a shallow embedding of
the dual-mode authentication and identity-verification flow (mobile Firestore
verification engine, backend signup/login/refresh routes, Firebase identity
bridge), with theorems settling the behavioural claims about that flow.

String operations are modelled structurally over the character data of Lean
strings so that every definition evaluates inside the kernel; each helper
mirrors the corresponding JavaScript/Dart string method on ASCII input.
-/

namespace HealthApp

/-- Uppercase every character: model of JS/Dart `toUpperCase()` (ASCII). -/
def toUpperStr (s : String) : String := ⟨s.data.map Char.toUpper⟩

/-- Lowercase every character: model of JS/Dart `toLowerCase()` (ASCII). -/
def toLowerStr (s : String) : String := ⟨s.data.map Char.toLower⟩

/-- Strip leading and trailing whitespace: model of JS/Dart `trim()`. -/
def trimStr (s : String) : String :=
  ⟨((s.data.dropWhile Char.isWhitespace).reverse.dropWhile Char.isWhitespace).reverse⟩

/-- Split a character list at every occurrence of `sep`. -/
def splitCharList (sep : Char) : List Char → List (List Char)
  | [] => [[]]
  | c :: cs =>
    let r := splitCharList sep cs
    if c == sep then [] :: r
    else
      match r with
      | [] => [[c]]
      | h :: t => (c :: h) :: t

/-- Split a string on a single-character separator: model of JS/Dart
`split(sep)`, which yields `[""]` on the empty string and keeps empty
segments. -/
def splitChar (sep : Char) (s : String) : List String :=
  (splitCharList sep s.data).map (fun l => ⟨l⟩)

/-- A document of the `verified_doctors` Firestore collection
(the Credential Registry's doctor records); only the three fields the
verification query constrains are modelled. -/
structure DoctorRecord where
  licenseNumber : String
  fullName : String
  medicalCouncil : String
deriving DecidableEq, Repr

/-- A document of the `verified_organizations` Firestore collection together
with its `employees` subcollection (modelled as the list of employee document
ids it contains). -/
structure OrganizationRecord where
  id : String
  emailDomains : List String
  employees : List String
deriving DecidableEq, Repr

/-- Mobile `AuthService.verifyDoctorLicense`: query `verified_doctors` for a
document whose `licenseNumber` equals the input uppercased, whose `fullName`
equals the input trimmed, and whose `medicalCouncil` equals the input as
given; true iff at least one such document exists. -/
def verifyDoctorLicense (registry : List DoctorRecord)
    (licenseNumber fullName medicalCouncil : String) : Bool :=
  registry.any fun r =>
    r.licenseNumber == toUpperStr licenseNumber &&
    r.fullName == trimStr fullName &&
    r.medicalCouncil == medicalCouncil

/-- Mobile `AuthService.verifyStaffOrganization`: the email's domain, written
`email.split('@').last.toLowerCase()` in the source. -/
def emailDomainDart (email : String) : String :=
  toLowerStr ((splitChar '@' email).getLastD "")

/-- Mobile `AuthService.verifyStaffOrganization`: look up the organization
document by id (absent → false), require the email domain to be in the
organization's `emailDomains` list (else false), then require the employee
document to exist in the organization's `employees` subcollection. -/
def verifyStaffOrganization (orgs : List OrganizationRecord)
    (email organizationId employeeId : String) : Bool :=
  match orgs.find? (fun o => o.id == organizationId) with
  | none => false
  | some org =>
    if !(org.emailDomains.contains (emailDomainDart email)) then false
    else org.employees.contains employeeId

/-- C1: `verifyDoctorLicense` returns true iff the credential registry
contains an entry exactly matching the triple (licenseNumber uppercased,
fullName trimmed, medicalCouncil as given); when every registry entry
mismatches in at least one of the three fields the result is false, so any
single-field mismatch with the other two matching fails closed and there is
no fuzzy matching. -/
theorem verifyDoctorLicense_exact_match (registry : List DoctorRecord)
    (licenseNumber fullName medicalCouncil : String) :
    (verifyDoctorLicense registry licenseNumber fullName medicalCouncil = true ↔
      ∃ r ∈ registry, r.licenseNumber = toUpperStr licenseNumber ∧
        r.fullName = trimStr fullName ∧ r.medicalCouncil = medicalCouncil)
    ∧ ((∀ r ∈ registry, r.licenseNumber ≠ toUpperStr licenseNumber ∨
          r.fullName ≠ trimStr fullName ∨ r.medicalCouncil ≠ medicalCouncil) →
        verifyDoctorLicense registry licenseNumber fullName medicalCouncil = false) := by
  constructor
  · simp [verifyDoctorLicense, List.any_eq_true, Bool.and_eq_true, beq_iff_eq, and_assoc]
  · intro h
    simp only [verifyDoctorLicense, List.any_eq_false, Bool.and_eq_true, beq_iff_eq]
    intro r hr
    rcases h r hr with h1 | h2 | h3
    · simp [h1]
    · simp [h2]
    · simp [h3]

/-- Witness for C1 at a concrete registry: a query matching after
normalization succeeds, and a query whose medicalCouncil mismatches (the
other two fields matching exactly) fails. -/
theorem verifyDoctorLicense_exact_match_witness :
    verifyDoctorLicense [⟨"L1", "N", "C"⟩] "l1" " N " "C" = true ∧
    verifyDoctorLicense [⟨"L1", "N", "C"⟩] "l1" " N " "X" = false := by
  constructor
  · exact (verifyDoctorLicense_exact_match [⟨"L1", "N", "C"⟩] "l1" " N " "C").1.mpr
      ⟨⟨"L1", "N", "C"⟩, by decide, by decide, by decide, by decide⟩
  · exact (verifyDoctorLicense_exact_match [⟨"L1", "N", "C"⟩] "l1" " N " "X").2 (by decide)

/-- C2: `verifyStaffOrganization` returns true iff the organization exists,
the email's lowercased domain is in its allowed-domain list, and the
employeeId exists within that organization; in particular, when the
organization exists and the employeeId exists in it but the email domain is
not allowed, the result is false. -/
theorem verifyStaffOrganization_gate (orgs : List OrganizationRecord)
    (email organizationId employeeId : String) :
    (verifyStaffOrganization orgs email organizationId employeeId = true ↔
      ∃ org, orgs.find? (fun o => o.id == organizationId) = some org ∧
        emailDomainDart email ∈ org.emailDomains ∧ employeeId ∈ org.employees)
    ∧ (∀ org, orgs.find? (fun o => o.id == organizationId) = some org →
        employeeId ∈ org.employees →
        emailDomainDart email ∉ org.emailDomains →
        verifyStaffOrganization orgs email organizationId employeeId = false) := by
  constructor
  · unfold verifyStaffOrganization
    cases hf : orgs.find? (fun o => o.id == organizationId) with
    | none => simp
    | some org =>
      constructor
      · intro h
        simp at h
        exact ⟨org, rfl, h.1, h.2⟩
      · rintro ⟨org2, h2, hd, he⟩
        obtain rfl := Option.some.inj h2
        simp [hd, he]
  · intro org hf he hd
    unfold verifyStaffOrganization
    rw [hf]
    simp [hd]

/-- Witness for C2 at a concrete organization registry: a staff member with
an allowed email domain and a listed employeeId passes, and the same
employeeId with a disallowed email domain fails. -/
theorem verifyStaffOrganization_gate_witness :
    verifyStaffOrganization [⟨"ORG1", ["h.com"], ["E1"]⟩] "a@H.com" "ORG1" "E1" = true ∧
    verifyStaffOrganization [⟨"ORG1", ["x.com"], ["E1"]⟩] "a@h.com" "ORG1" "E1" = false := by
  constructor
  · exact (verifyStaffOrganization_gate [⟨"ORG1", ["h.com"], ["E1"]⟩] "a@H.com" "ORG1" "E1").1.mpr
      ⟨⟨"ORG1", ["h.com"], ["E1"]⟩, by decide, by decide, by decide⟩
  · exact (verifyStaffOrganization_gate [⟨"ORG1", ["x.com"], ["E1"]⟩] "a@h.com" "ORG1" "E1").2
      ⟨"ORG1", ["x.com"], ["E1"]⟩ (by decide) (by decide) (by decide)

/-- Prisma `Role` enum restricted to the three roles the signup and sync
schemas accept (`z.enum(['PATIENT', 'DOCTOR', 'STAFF'])`). -/
inductive Role
  | PATIENT
  | DOCTOR
  | STAFF
deriving DecidableEq, Repr

/-- Prisma `AccountStatus` enum. -/
inductive AccountStatus
  | PENDING_VERIFICATION
  | ACTIVE
  | SUSPENDED
  | DELETED
deriving DecidableEq, Repr

/-- Prisma `VerificationStatus` enum. -/
inductive VerificationStatus
  | PENDING
  | APPROVED
  | REJECTED
deriving DecidableEq, Repr

/-- Parse of the zod role enum: any string outside the three accepted
constants is a validation failure. -/
def parseRole : String → Option Role
  | "PATIENT" => some Role.PATIENT
  | "DOCTOR" => some Role.DOCTOR
  | "STAFF" => some Role.STAFF
  | _ => none

/-- Raw body of `POST /api/auth/signup` (fields the schema reads). -/
structure SignupRequest where
  email : String
  password : String
  role : String
  fullName : String
  specialization : Option String
  licenseNumber : Option String
  medicalCouncil : Option String
  organizationId : Option String
  employeeId : Option String
  department : Option String
deriving DecidableEq, Repr

/-- Parsed signup body, as produced by `signupSchema.parse`. -/
structure SignupData where
  email : String
  password : String
  role : Role
  fullName : String
  specialization : Option String
  licenseNumber : Option String
  medicalCouncil : Option String
  organizationId : Option String
  employeeId : Option String
  department : Option String
deriving DecidableEq, Repr

/-- Backend `signupSchema` (zod): the email must pass the library's
well-formedness check (passed in as `emailOk`, since zod's email regex lives
outside this repository), the password must have length at least 6, the
fullName length at least 2, and the role must be one of
PATIENT/DOCTOR/STAFF.  Every role-specific field is declared `.optional()`,
so their absence never fails the parse. -/
def signupSchemaParse (emailOk : String → Bool) (r : SignupRequest) : Option SignupData :=
  match parseRole r.role with
  | none => none
  | some role =>
    if emailOk r.email && decide (6 ≤ r.password.length) && decide (2 ≤ r.fullName.length) then
      some { email := r.email, password := r.password, role := role, fullName := r.fullName,
             specialization := r.specialization, licenseNumber := r.licenseNumber,
             medicalCouncil := r.medicalCouncil, organizationId := r.organizationId,
             employeeId := r.employeeId, department := r.department }
    else none

/-- The two comma-separated environment values the backend domain check
reads (DOCTOR_EMAIL_DOMAINS and ADMIN_EMAIL_DOMAINS, defaulting to ""). -/
structure DomainEnv where
  doctorEmailDomains : String
  adminEmailDomains : String
deriving DecidableEq, Repr

/-- Backend helper `isVerifiedDomain`: the email's domain is
`email.split('@')[1].toLowerCase()`; a doctor's domain must equal one entry
of DOCTOR_EMAIL_DOMAINS (each entry trimmed and lowercased), a staff
member's one entry of ADMIN_EMAIL_DOMAINS; patients always pass. -/
def isVerifiedDomain (env : DomainEnv) (email : String) (role : Role) : Bool :=
  let domain := toLowerStr ((splitChar '@' email).getD 1 "")
  match role with
  | .DOCTOR => (splitChar ',' env.doctorEmailDomains).any (fun d => toLowerStr (trimStr d) == domain)
  | .STAFF => (splitChar ',' env.adminEmailDomains).any (fun d => toLowerStr (trimStr d) == domain)
  | .PATIENT => true

/-- Row of the `patients` table (the fields signup populates). -/
structure PatientProfile where
  fullName : String
deriving DecidableEq, Repr

/-- Row of the `doctors` table (the fields signup populates). -/
structure DoctorProfile where
  fullName : String
  specialization : String
  licenseNumber : Option String
  medicalCouncil : Option String
  verificationStatus : VerificationStatus
deriving DecidableEq, Repr

/-- Row of the `staff` table (the fields signup populates). -/
structure StaffProfile where
  fullName : String
  organizationId : Option String
  employeeId : Option String
  department : Option String
  verificationStatus : VerificationStatus
deriving DecidableEq, Repr

/-- The exactly-one role-specific profile owned by a user row. -/
inductive Profile
  | patient : PatientProfile → Profile
  | doctor : DoctorProfile → Profile
  | staff : StaffProfile → Profile
deriving DecidableEq, Repr

/-- The profile's verificationStatus column (absent for patients, whose
table has none). -/
def Profile.verificationStatusOf : Profile → Option VerificationStatus
  | .patient _ => none
  | .doctor d => some d.verificationStatus
  | .staff s => some s.verificationStatus

/-- The nested `create` blocks of the two `prisma.user.create` calls: a
patient profile holds the fullName; a doctor profile defaults a missing
specialization to "General Medicine" and starts PENDING; a staff profile
starts PENDING. -/
def mkProfile (role : Role) (fullName : String)
    (specialization licenseNumber medicalCouncil organizationId employeeId department :
      Option String) : Profile :=
  match role with
  | .PATIENT => .patient { fullName := fullName }
  | .DOCTOR =>
    .doctor
      { fullName := fullName
        specialization := specialization.getD "General Medicine"
        licenseNumber := licenseNumber
        medicalCouncil := medicalCouncil
        verificationStatus := .PENDING }
  | .STAFF =>
    .staff
      { fullName := fullName
        organizationId := organizationId
        employeeId := employeeId
        department := department
        verificationStatus := .PENDING }

/-- Row of the `users` table; timestamps are modelled as abstract ticks and
ids as consecutive naturals. -/
structure User where
  id : Nat
  email : String
  passwordHash : String
  role : Role
  emailVerified : Bool
  accountStatus : AccountStatus
  lastLogin : Option Nat
  firebaseUid : Option String
  profile : Profile
deriving DecidableEq, Repr

/-- Row of the `sessions` table. -/
structure Session where
  userId : Nat
  refreshToken : String
  expiresAt : Nat
deriving DecidableEq, Repr

/-- The relational Identity Store: users (each owning its profile inline)
and sessions, plus the id counter. -/
structure Store where
  users : List User
  sessions : List Session
  nextId : Nat
deriving DecidableEq, Repr

/-- Append a freshly created user row. -/
def Store.addUser (st : Store) (u : User) : Store :=
  { st with users := st.users ++ [u], nextId := st.nextId + 1 }

/-- Outcome of `POST /api/auth/signup`. -/
inductive SignupOutcome
  | validationFailed
  | emailTaken
  | domainRejected
  | created : User → SignupOutcome
deriving DecidableEq, Repr

/-- The user row built by the signup route's `prisma.user.create` call. -/
def mkSignupUser (hash : String → String) (st : Store) (d : SignupData) : User :=
  { id := st.nextId
    email := d.email
    passwordHash := hash d.password
    role := d.role
    emailVerified := false
    accountStatus := if d.role == Role.PATIENT then .ACTIVE else .PENDING_VERIFICATION
    lastLogin := none
    firebaseUid := none
    profile := mkProfile d.role d.fullName d.specialization d.licenseNumber
      d.medicalCouncil d.organizationId d.employeeId d.department }

/-- Backend `POST /api/auth/signup`: parse the body against `signupSchema`;
reject an already-registered email; reject a doctor or staff signup whose
email domain fails `isVerifiedDomain`; otherwise hash the password
(`bcrypt.hash`, passed in as `hash`) and create the user together with its
role-specific profile in a single `prisma.user.create` call. -/
def signupRoute (emailOk : String → Bool) (hash : String → String) (env : DomainEnv)
    (st : Store) (r : SignupRequest) : SignupOutcome × Store :=
  match signupSchemaParse emailOk r with
  | none => (.validationFailed, st)
  | some d =>
    if st.users.any (fun u => u.email == d.email) then (.emailTaken, st)
    else if (d.role == Role.DOCTOR || d.role == Role.STAFF) &&
        !(isVerifiedDomain env d.email d.role) then
      (.domainRejected, st)
    else
      (.created (mkSignupUser hash st d), st.addUser (mkSignupUser hash st d))

/-- Raw body of `POST /api/auth/sync-firebase-user`. -/
structure SyncRequest where
  firebaseUid : String
  email : String
  role : String
  fullName : String
  specialization : Option String
  licenseNumber : Option String
  medicalCouncil : Option String
  organizationId : Option String
  employeeId : Option String
  department : Option String
deriving DecidableEq, Repr

/-- Parsed sync body, as produced by `syncUserSchema.parse`. -/
structure SyncData where
  firebaseUid : String
  email : String
  role : Role
  fullName : String
  specialization : Option String
  licenseNumber : Option String
  medicalCouncil : Option String
  organizationId : Option String
  employeeId : Option String
  department : Option String
deriving DecidableEq, Repr

/-- Backend `syncUserSchema` (zod): firebaseUid any string, email
well-formed, fullName length at least 2, role one of PATIENT/DOCTOR/STAFF;
all role-specific fields `.optional()`. -/
def syncUserSchemaParse (emailOk : String → Bool) (r : SyncRequest) : Option SyncData :=
  match parseRole r.role with
  | none => none
  | some role =>
    if emailOk r.email && decide (2 ≤ r.fullName.length) then
      some { firebaseUid := r.firebaseUid, email := r.email, role := role,
             fullName := r.fullName, specialization := r.specialization,
             licenseNumber := r.licenseNumber, medicalCouncil := r.medicalCouncil,
             organizationId := r.organizationId, employeeId := r.employeeId,
             department := r.department }
    else none

/-- The already-verified external identity token (`req.firebaseUser`). -/
structure FirebaseToken where
  uid : String
  email : String
  emailVerified : Bool
deriving DecidableEq, Repr

/-- Outcome of `POST /api/auth/sync-firebase-user`. -/
inductive SyncOutcome
  | validationFailed
  | uidMismatch
  | alreadySynced : User → SyncOutcome
  | created : User → SyncOutcome
deriving DecidableEq, Repr

/-- The account returned by a successful sync (both the already-synced and
the freshly-created case). -/
def SyncOutcome.account : SyncOutcome → Option User
  | .alreadySynced u => some u
  | .created u => some u
  | _ => none

/-- The user row built by the sync route's `prisma.user.create` call (no
password credential is set on this path). -/
def mkSyncUser (tok : FirebaseToken) (st : Store) (d : SyncData) : User :=
  { id := st.nextId
    email := d.email
    passwordHash := ""
    role := d.role
    emailVerified := tok.emailVerified
    accountStatus := if d.role == Role.PATIENT then .ACTIVE else .PENDING_VERIFICATION
    lastLogin := none
    firebaseUid := some d.firebaseUid
    profile := mkProfile d.role d.fullName d.specialization d.licenseNumber
      d.medicalCouncil d.organizationId d.employeeId d.department }

/-- Backend `POST /api/auth/sync-firebase-user`: parse the body; a body
firebaseUid different from the token's uid is a forbidden operation; if a
user row already carries this firebaseUid return it unchanged; otherwise
create the account with its role-specific profile, emailVerified taken from
the token. -/
def syncFirebaseUser (emailOk : String → Bool) (tok : FirebaseToken)
    (st : Store) (r : SyncRequest) : SyncOutcome × Store :=
  match syncUserSchemaParse emailOk r with
  | none => (.validationFailed, st)
  | some d =>
    if d.firebaseUid != tok.uid then (.uidMismatch, st)
    else
      match st.users.find? (fun u => u.firebaseUid == some d.firebaseUid) with
      | some u => (.alreadySynced u, st)
      | none => (.created (mkSyncUser tok st d), st.addUser (mkSyncUser tok st d))

/-- Inversion for a signup that created an account: the body parsed, the
email was free, the domain gate passed, and the result is the literal row
built by the route. -/
theorem signupRoute_created_inv (emailOk : String → Bool) (hash : String → String)
    (env : DomainEnv) (st : Store) (r : SignupRequest) (u : User) (st2 : Store)
    (h : signupRoute emailOk hash env st r = (.created u, st2)) :
    ∃ d, signupSchemaParse emailOk r = some d ∧
      st.users.any (fun x => x.email == d.email) = false ∧
      ((d.role == Role.DOCTOR || d.role == Role.STAFF) &&
        !(isVerifiedDomain env d.email d.role)) = false ∧
      u = mkSignupUser hash st d ∧ st2 = st.addUser (mkSignupUser hash st d) := by
  unfold signupRoute at h
  cases hp : signupSchemaParse emailOk r with
  | none => rw [hp] at h; simp at h
  | some d =>
    rw [hp] at h
    refine ⟨d, rfl, ?_⟩
    cases he : st.users.any (fun x => x.email == d.email) with
    | true => simp [he] at h
    | false =>
      cases hv : ((d.role == Role.DOCTOR || d.role == Role.STAFF) &&
          !(isVerifiedDomain env d.email d.role)) with
      | true => simp [he, hv] at h
      | false =>
        simp [he, hv] at h
        exact ⟨rfl, rfl, h.1.symm, h.2.symm⟩

/-- Inversion for a sync that created an account. -/
theorem syncFirebaseUser_created_inv (emailOk : String → Bool) (tok : FirebaseToken)
    (st : Store) (r : SyncRequest) (u : User) (st2 : Store)
    (h : syncFirebaseUser emailOk tok st r = (.created u, st2)) :
    ∃ d, syncUserSchemaParse emailOk r = some d ∧
      (d.firebaseUid != tok.uid) = false ∧
      st.users.find? (fun x => x.firebaseUid == some d.firebaseUid) = none ∧
      u = mkSyncUser tok st d ∧ st2 = st.addUser (mkSyncUser tok st d) := by
  unfold syncFirebaseUser at h
  cases hp : syncUserSchemaParse emailOk r with
  | none => rw [hp] at h; simp at h
  | some d =>
    rw [hp] at h
    refine ⟨d, rfl, ?_⟩
    cases hm : (d.firebaseUid != tok.uid) with
    | true => simp [hm] at h
    | false =>
      cases hf : st.users.find? (fun x => x.firebaseUid == some d.firebaseUid) with
      | some u2 => simp [hm, hf] at h
      | none =>
        simp [hm, hf] at h
        exact ⟨rfl, rfl, h.1.symm, h.2.symm⟩

/-- C3: on both account-creation paths, a created PATIENT account is ACTIVE
(and, on the password path, the outcome is independent of the
domain-verification environment, i.e. no verification check influences a
patient signup), while a created DOCTOR or STAFF account is
PENDING_VERIFICATION with its profile's verificationStatus PENDING. -/
theorem signup_status_by_role :
    (∀ (emailOk : String → Bool) (hash : String → String) (env : DomainEnv)
        (st : Store) (r : SignupRequest) (u : User) (st2 : Store),
      signupRoute emailOk hash env st r = (.created u, st2) →
        (u.role = .PATIENT → u.accountStatus = .ACTIVE ∧
            ∀ env2, signupRoute emailOk hash env2 st r = (.created u, st2)) ∧
        ((u.role = .DOCTOR ∨ u.role = .STAFF) →
            u.accountStatus = .PENDING_VERIFICATION ∧
            u.profile.verificationStatusOf = some .PENDING))
    ∧ (∀ (emailOk : String → Bool) (tok : FirebaseToken) (st : Store)
        (r : SyncRequest) (u : User) (st2 : Store),
      syncFirebaseUser emailOk tok st r = (.created u, st2) →
        (u.role = .PATIENT → u.accountStatus = .ACTIVE) ∧
        ((u.role = .DOCTOR ∨ u.role = .STAFF) →
            u.accountStatus = .PENDING_VERIFICATION ∧
            u.profile.verificationStatusOf = some .PENDING)) := by
  constructor
  · intro emailOk hash env st r u st2 h
    obtain ⟨d, hp, he, hv, hu, hst⟩ := signupRoute_created_inv emailOk hash env st r u st2 h
    have hrole : u.role = d.role := by rw [hu]; rfl
    constructor
    · intro hpat
      have hdrole : d.role = .PATIENT := by rw [← hrole, hpat]
      constructor
      · rw [hu, mkSignupUser]; simp [hdrole]
      · intro env2
        unfold signupRoute
        rw [hp]
        simp only [he, Bool.false_eq_true, if_false]
        have : ((d.role == Role.DOCTOR || d.role == Role.STAFF) &&
            !(isVerifiedDomain env2 d.email d.role)) = false := by
          simp [hdrole]
        simp only [this, Bool.false_eq_true, if_false]
        rw [hu, hst]
    · intro hds
      have hdrole : d.role = .DOCTOR ∨ d.role = .STAFF := by
        rw [← hrole]; exact hds
      constructor
      · rw [hu, mkSignupUser]
        rcases hdrole with h1 | h1 <;> simp [h1]
      · rw [hu, mkSignupUser]
        simp only [mkProfile]
        rcases hdrole with h1 | h1 <;> rw [h1] <;> rfl
  · intro emailOk tok st r u st2 h
    obtain ⟨d, hp, hm, hf, hu, hst⟩ := syncFirebaseUser_created_inv emailOk tok st r u st2 h
    have hrole : u.role = d.role := by rw [hu]; rfl
    constructor
    · intro hpat
      have hdrole : d.role = .PATIENT := by rw [← hrole, hpat]
      rw [hu, mkSyncUser]; simp [hdrole]
    · intro hds
      have hdrole : d.role = .DOCTOR ∨ d.role = .STAFF := by
        rw [← hrole]; exact hds
      constructor
      · rw [hu, mkSyncUser]
        rcases hdrole with h1 | h1 <;> simp [h1]
      · rw [hu, mkSyncUser]
        simp only [mkProfile]
        rcases hdrole with h1 | h1 <;> rw [h1] <;> rfl

/-- Witness for C3: a concrete patient signup comes out ACTIVE, and a
concrete doctor synced from the external identity provider comes out
PENDING_VERIFICATION with a PENDING profile. -/
theorem signup_status_by_role_witness :
    ({ id := 0, email := "p@x.com", passwordHash := "secret", role := .PATIENT,
       emailVerified := false, accountStatus := .ACTIVE, lastLogin := none,
       firebaseUid := none, profile := .patient { fullName := "Pat" } } : User).accountStatus
      = .ACTIVE ∧
    (({ id := 0, email := "d@h.com", passwordHash := "", role := .DOCTOR,
        emailVerified := true, accountStatus := .PENDING_VERIFICATION, lastLogin := none,
        firebaseUid := some "fb1",
        profile := .doctor { fullName := "Doc", specialization := "General Medicine", licenseNumber := none, medicalCouncil := none, verificationStatus := .PENDING } } : User).accountStatus = .PENDING_VERIFICATION ∧
      ({ id := 0, email := "d@h.com", passwordHash := "", role := .DOCTOR,
         emailVerified := true, accountStatus := .PENDING_VERIFICATION, lastLogin := none,
         firebaseUid := some "fb1",
         profile := .doctor { fullName := "Doc", specialization := "General Medicine", licenseNumber := none, medicalCouncil := none, verificationStatus := .PENDING } } : User).profile.verificationStatusOf
        = some .PENDING) := by
  constructor
  · exact ((signup_status_by_role.1 (fun _ => true) (fun p => p) ⟨"", ""⟩ ⟨[], [], 0⟩
      { email := "p@x.com", password := "secret", role := "PATIENT", fullName := "Pat",
        specialization := none, licenseNumber := none, medicalCouncil := none,
        organizationId := none, employeeId := none, department := none }
      { id := 0, email := "p@x.com", passwordHash := "secret", role := .PATIENT,
        emailVerified := false, accountStatus := .ACTIVE, lastLogin := none,
        firebaseUid := none, profile := .patient { fullName := "Pat" } }
      ⟨[{ id := 0, email := "p@x.com", passwordHash := "secret", role := .PATIENT,
          emailVerified := false, accountStatus := .ACTIVE, lastLogin := none,
          firebaseUid := none, profile := .patient { fullName := "Pat" } }], [], 1⟩
      (by decide)).1 rfl).1
  · exact (signup_status_by_role.2 (fun _ => true) ⟨"fb1", "d@h.com", true⟩ ⟨[], [], 0⟩
      { firebaseUid := "fb1", email := "d@h.com", role := "DOCTOR", fullName := "Doc",
        specialization := none, licenseNumber := none, medicalCouncil := none,
        organizationId := none, employeeId := none, department := none }
      { id := 0, email := "d@h.com", passwordHash := "", role := .DOCTOR,
        emailVerified := true, accountStatus := .PENDING_VERIFICATION, lastLogin := none,
        firebaseUid := some "fb1",
        profile := .doctor { fullName := "Doc", specialization := "General Medicine", licenseNumber := none, medicalCouncil := none, verificationStatus := .PENDING } }
      ⟨[{ id := 0, email := "d@h.com", passwordHash := "", role := .DOCTOR,
          emailVerified := true, accountStatus := .PENDING_VERIFICATION, lastLogin := none,
          firebaseUid := some "fb1",
          profile := .doctor { fullName := "Doc", specialization := "General Medicine", licenseNumber := none, medicalCouncil := none, verificationStatus := .PENDING } }], [], 1⟩
      (by decide)).2 (Or.inl rfl)

/-- HTTP response of the login route: the status code and the modelled JSON
fields. The 400 branch of a zod parse failure returns the itemized issue
list, represented here by the marker string "ZodError". -/
structure LoginResponse where
  status : Nat
  error : Option String
  accessToken : Option String
  refreshToken : Option String
deriving DecidableEq, Repr

/-- Backend `POST /api/auth/login`: parse the body (`loginSchema` requires a
well-formed email and any password string); look up the user by email and
answer 401 "Invalid credentials" both when no user exists and when
`bcrypt.compare` rejects the password; 403 for SUSPENDED and for
PENDING_VERIFICATION; otherwise sign an access and a refresh token, insert
a session row expiring 7 days from now, and set lastLogin. `hash`,
`signAccess` and `signRefresh` stand for bcrypt and the two `jwt.sign`
calls; time is in days. -/
def loginRoute (emailOk : String → Bool) (hash : String → String)
    (signAccess : Nat → Role → String) (signRefresh : Nat → String)
    (now : Nat) (st : Store) (email password : String) : LoginResponse × Store :=
  if !(emailOk email) then
    ({ status := 400, error := some "ZodError", accessToken := none, refreshToken := none }, st)
  else
    match st.users.find? (fun u => u.email == email) with
    | none =>
      ({ status := 401, error := some "Invalid credentials", accessToken := none,
         refreshToken := none }, st)
    | some user =>
      if hash password != user.passwordHash then
        ({ status := 401, error := some "Invalid credentials", accessToken := none,
           refreshToken := none }, st)
      else if user.accountStatus == AccountStatus.SUSPENDED then
        ({ status := 403, error := some "Account suspended", accessToken := none,
           refreshToken := none }, st)
      else if user.accountStatus == AccountStatus.PENDING_VERIFICATION then
        ({ status := 403,
           error := some "Account pending verification. Please upload your verification documents or wait for admin approval.",
           accessToken := none, refreshToken := none }, st)
      else
        ({ status := 200, error := none,
           accessToken := some (signAccess user.id user.role),
           refreshToken := some (signRefresh user.id) },
         { st with
             sessions := st.sessions ++
               [{ userId := user.id, refreshToken := signRefresh user.id, expiresAt := now + 7 }],
             users := st.users.map
               (fun x => if x.id == user.id then { x with lastLogin := some now } else x) })

/-- C6: the login route's response for "no account with this email" and its
response for "account exists but the password is wrong" are the same
literal 401 response with message "Invalid credentials", so the two failure
causes are indistinguishable to an observer. -/
theorem login_error_indistinguishable (emailOk : String → Bool) (hash : String → String)
    (signAccess : Nat → Role → String) (signRefresh : Nat → String)
    (now : Nat) (st : Store) (email password : String) (u : User)
    (hok : emailOk email = true) :
    (st.users.find? (fun x => x.email == email) = none →
      loginRoute emailOk hash signAccess signRefresh now st email password =
        ({ status := 401, error := some "Invalid credentials", accessToken := none,
           refreshToken := none }, st))
    ∧ (st.users.find? (fun x => x.email == email) = some u →
        hash password ≠ u.passwordHash →
        loginRoute emailOk hash signAccess signRefresh now st email password =
          ({ status := 401, error := some "Invalid credentials", accessToken := none,
             refreshToken := none }, st)) := by
  constructor
  · intro hf
    unfold loginRoute
    rw [hf]
    simp [hok]
  · intro hf hpw
    unfold loginRoute
    rw [hf]
    simp [hok, hpw]

/-- Witness for C6: with one concrete account, an unknown email and a wrong
password for the known email produce the identical 401 response. -/
theorem login_error_indistinguishable_witness :
    loginRoute (fun _ => true) (fun p => p) (fun _ _ => "at") (fun _ => "rt") 0
        ⟨[{ id := 0, email := "a@x.com", passwordHash := "pw123", role := .PATIENT,
            emailVerified := true, accountStatus := .ACTIVE, lastLogin := none,
            firebaseUid := none, profile := .patient { fullName := "A" } }], [], 1⟩
        "b@x.com" "whatever" =
      ({ status := 401, error := some "Invalid credentials", accessToken := none,
         refreshToken := none },
       ⟨[{ id := 0, email := "a@x.com", passwordHash := "pw123", role := .PATIENT,
           emailVerified := true, accountStatus := .ACTIVE, lastLogin := none,
           firebaseUid := none, profile := .patient { fullName := "A" } }], [], 1⟩) ∧
    loginRoute (fun _ => true) (fun p => p) (fun _ _ => "at") (fun _ => "rt") 0
        ⟨[{ id := 0, email := "a@x.com", passwordHash := "pw123", role := .PATIENT,
            emailVerified := true, accountStatus := .ACTIVE, lastLogin := none,
            firebaseUid := none, profile := .patient { fullName := "A" } }], [], 1⟩
        "a@x.com" "wrongpw" =
      ({ status := 401, error := some "Invalid credentials", accessToken := none,
         refreshToken := none },
       ⟨[{ id := 0, email := "a@x.com", passwordHash := "pw123", role := .PATIENT,
           emailVerified := true, accountStatus := .ACTIVE, lastLogin := none,
           firebaseUid := none, profile := .patient { fullName := "A" } }], [], 1⟩) := by
  constructor
  · exact (login_error_indistinguishable (fun _ => true) (fun p => p) (fun _ _ => "at")
      (fun _ => "rt") 0
      ⟨[{ id := 0, email := "a@x.com", passwordHash := "pw123", role := .PATIENT,
          emailVerified := true, accountStatus := .ACTIVE, lastLogin := none,
          firebaseUid := none, profile := .patient { fullName := "A" } }], [], 1⟩
      "b@x.com" "whatever"
      { id := 0, email := "a@x.com", passwordHash := "pw123", role := .PATIENT,
        emailVerified := true, accountStatus := .ACTIVE, lastLogin := none,
        firebaseUid := none, profile := .patient { fullName := "A" } }
      rfl).1 (by decide)
  · exact (login_error_indistinguishable (fun _ => true) (fun p => p) (fun _ _ => "at")
      (fun _ => "rt") 0
      ⟨[{ id := 0, email := "a@x.com", passwordHash := "pw123", role := .PATIENT,
          emailVerified := true, accountStatus := .ACTIVE, lastLogin := none,
          firebaseUid := none, profile := .patient { fullName := "A" } }], [], 1⟩
      "a@x.com" "wrongpw"
      { id := 0, email := "a@x.com", passwordHash := "pw123", role := .PATIENT,
        emailVerified := true, accountStatus := .ACTIVE, lastLogin := none,
        firebaseUid := none, profile := .patient { fullName := "A" } }
      rfl).2 (by decide) (by decide)

/-- Counterexample to C7 as stated: an account whose accountStatus is
DELETED (a non-Active status) logs in successfully with the correct
password — the status gate only checks SUSPENDED and PENDING_VERIFICATION —
and a Session row is created for it. -/
theorem login_deleted_account_creates_session_cex :
    (loginRoute (fun _ => true) (fun p => p) (fun _ _ => "at") (fun _ => "rt") 0
        ⟨[{ id := 0, email := "d@x.com", passwordHash := "pw123", role := .PATIENT,
            emailVerified := true, accountStatus := .DELETED, lastLogin := none,
            firebaseUid := none, profile := .patient { fullName := "D" } }], [], 1⟩
        "d@x.com" "pw123").1.status = 200 ∧
    (loginRoute (fun _ => true) (fun p => p) (fun _ _ => "at") (fun _ => "rt") 0
        ⟨[{ id := 0, email := "d@x.com", passwordHash := "pw123", role := .PATIENT,
            emailVerified := true, accountStatus := .DELETED, lastLogin := none,
            firebaseUid := none, profile := .patient { fullName := "D" } }], [], 1⟩
        "d@x.com" "pw123").2.sessions =
      [{ userId := 0, refreshToken := "rt", expiresAt := 7 }] ∧
    AccountStatus.DELETED ≠ AccountStatus.ACTIVE := by
  exact ⟨by decide, by decide, by decide⟩

/-- C7 (amended): every failing login attempt — unknown email, wrong
password, or account status SUSPENDED or PENDING_VERIFICATION — leaves the
store (sessions and lastLogin included) unchanged, any non-200 outcome
leaves the store unchanged, and the session list changes only when the
login fully succeeds. (A DELETED status is not checked by the gate, so it
is not among the failing statuses.) -/
theorem login_failure_no_session (emailOk : String → Bool) (hash : String → String)
    (signAccess : Nat → Role → String) (signRefresh : Nat → String)
    (now : Nat) (st : Store) (email password : String)
    (resp : LoginResponse) (st2 : Store)
    (hok : emailOk email = true)
    (h : loginRoute emailOk hash signAccess signRefresh now st email password = (resp, st2)) :
    (resp.status ≠ 200 → st2 = st)
    ∧ (st.users.find? (fun x => x.email == email) = none → resp.status = 401 ∧ st2 = st)
    ∧ (∀ u, st.users.find? (fun x => x.email == email) = some u →
        (hash password ≠ u.passwordHash → resp.status = 401 ∧ st2 = st)
        ∧ (hash password = u.passwordHash →
            (u.accountStatus = .SUSPENDED ∨ u.accountStatus = .PENDING_VERIFICATION) →
            resp.status = 403 ∧ st2 = st))
    ∧ (st2.sessions ≠ st.sessions → resp.status = 200) := by
  unfold loginRoute at h
  rw [hok] at h
  simp only [Bool.not_true, Bool.false_eq_true, if_false] at h
  split at h
  next hf =>
    rw [Prod.mk.injEq] at h
    obtain ⟨h1, h2⟩ := h
    subst h1; subst h2
    refine ⟨fun _ => rfl, fun _ => ⟨rfl, rfl⟩, ?_, fun hs => absurd rfl hs⟩
    intro u hu
    rw [hf] at hu
    cases hu
  next user hf =>
    split at h
    next hpw =>
      rw [Prod.mk.injEq] at h
      obtain ⟨h1, h2⟩ := h
      subst h1; subst h2
      refine ⟨fun _ => rfl, ?_, ?_, fun hs => absurd rfl hs⟩
      · intro hn; rw [hf] at hn; cases hn
      · intro u hu
        rw [hf] at hu
        obtain rfl := Option.some.inj hu
        have hne : hash password ≠ user.passwordHash := by
          simpa using hpw
        exact ⟨fun _ => ⟨rfl, rfl⟩, fun heq => absurd heq hne⟩
    next hpw =>
      have hpw2 : hash password = user.passwordHash := by
        simpa using hpw
      split at h
      next hsusp =>
        rw [Prod.mk.injEq] at h
        obtain ⟨h1, h2⟩ := h
        subst h1; subst h2
        refine ⟨fun _ => rfl, ?_, ?_, fun hs => absurd rfl hs⟩
        · intro hn; rw [hf] at hn; cases hn
        · intro u hu
          rw [hf] at hu
          obtain rfl := Option.some.inj hu
          exact ⟨fun hne => absurd hpw2 hne, fun _ _ => ⟨rfl, rfl⟩⟩
      next hsusp =>
        split at h
        next hpend =>
          rw [Prod.mk.injEq] at h
          obtain ⟨h1, h2⟩ := h
          subst h1; subst h2
          refine ⟨fun _ => rfl, ?_, ?_, fun hs => absurd rfl hs⟩
          · intro hn; rw [hf] at hn; cases hn
          · intro u hu
            rw [hf] at hu
            obtain rfl := Option.some.inj hu
            exact ⟨fun hne => absurd hpw2 hne, fun _ _ => ⟨rfl, rfl⟩⟩
        next hpend =>
          rw [Prod.mk.injEq] at h
          obtain ⟨h1, h2⟩ := h
          subst h1; subst h2
          refine ⟨fun hne => absurd rfl hne, ?_, ?_, fun _ => rfl⟩
          · intro hn; rw [hf] at hn; cases hn
          · intro u hu
            rw [hf] at hu
            obtain rfl := Option.some.inj hu
            constructor
            · intro hne; exact absurd hpw2 hne
            · intro _ hstat
              rcases hstat with h1 | h1
              · exact absurd (by rw [h1]; decide) hsusp
              · exact absurd (by rw [h1]; decide) hpend

/-- Witness for C7 (amended): a wrong password against a concrete active
account yields a 401 and the unchanged store. -/
theorem login_failure_no_session_witness :
    (401 : Nat) = 401 ∧
    (⟨[{ id := 0, email := "a@x.com", passwordHash := "pw123", role := .PATIENT,
         emailVerified := true, accountStatus := .ACTIVE, lastLogin := none,
         firebaseUid := none, profile := .patient { fullName := "A" } }], [], 1⟩ : Store) =
      ⟨[{ id := 0, email := "a@x.com", passwordHash := "pw123", role := .PATIENT,
          emailVerified := true, accountStatus := .ACTIVE, lastLogin := none,
          firebaseUid := none, profile := .patient { fullName := "A" } }], [], 1⟩ := by
  exact ((login_failure_no_session (fun _ => true) (fun p => p) (fun _ _ => "at")
      (fun _ => "rt") 0
      ⟨[{ id := 0, email := "a@x.com", passwordHash := "pw123", role := .PATIENT,
          emailVerified := true, accountStatus := .ACTIVE, lastLogin := none,
          firebaseUid := none, profile := .patient { fullName := "A" } }], [], 1⟩
      "a@x.com" "wrongpw"
      { status := 401, error := some "Invalid credentials", accessToken := none,
        refreshToken := none }
      ⟨[{ id := 0, email := "a@x.com", passwordHash := "pw123", role := .PATIENT,
          emailVerified := true, accountStatus := .ACTIVE, lastLogin := none,
          firebaseUid := none, profile := .patient { fullName := "A" } }], [], 1⟩
      rfl (by decide)).2.2.1
      { id := 0, email := "a@x.com", passwordHash := "pw123", role := .PATIENT,
        emailVerified := true, accountStatus := .ACTIVE, lastLogin := none,
        firebaseUid := none, profile := .patient { fullName := "A" } }
      (by decide)).1 (by decide)

/-- HTTP response of the refresh route. -/
structure RefreshResponse where
  status : Nat
  error : Option String
  accessToken : Option String
deriving DecidableEq, Repr

/-- Backend `POST /api/auth/refresh`: 401 when no token is presented; verify
the refresh token's signature (`jwt.verify`, modelled by `verifySig`; a
thrown verification error lands in the route's catch-all, which answers 401
"Invalid refresh token"); look up the session row holding the literal token
and answer 401 when it is absent or its expiresAt has passed; otherwise sign
and return a new access token only. The route performs no writes. A session
whose user row is missing would make the handler throw on `session.user.id`
and likewise end in the 401 catch-all. -/
def refreshRoute (verifySig : String → Bool) (signAccess : Nat → Role → String)
    (now : Nat) (st : Store) (refreshToken : Option String) : RefreshResponse × Store :=
  match refreshToken with
  | none =>
    ({ status := 401, error := some "Refresh token required", accessToken := none }, st)
  | some tok =>
    if !(verifySig tok) then
      ({ status := 401, error := some "Invalid refresh token", accessToken := none }, st)
    else
      match st.sessions.find? (fun s => s.refreshToken == tok) with
      | none =>
        ({ status := 401, error := some "Invalid or expired refresh token",
           accessToken := none }, st)
      | some sess =>
        if decide (sess.expiresAt < now) then
          ({ status := 401, error := some "Invalid or expired refresh token",
             accessToken := none }, st)
        else
          match st.users.find? (fun u => u.id == sess.userId) with
          | none =>
            ({ status := 401, error := some "Invalid refresh token", accessToken := none }, st)
          | some user =>
            ({ status := 200, error := none,
               accessToken := some (signAccess user.id user.role) }, st)

/-- C8: assuming the schema's foreign-key invariant (every session row
references an existing user), the refresh route never modifies the store, it
issues a new access credential iff the presented token's signature verifies
and a session row holding it exists whose expiresAt has not passed, and
whenever no session row holds the token (deleted session) the answer is a
401 with no access token. -/
theorem refresh_access_iff_valid_session (verifySig : String → Bool)
    (signAccess : Nat → Role → String) (now : Nat) (st : Store) (tok : String)
    (hfk : ∀ s ∈ st.sessions, ∃ u ∈ st.users, u.id = s.userId) :
    (refreshRoute verifySig signAccess now st (some tok)).2 = st
    ∧ ((refreshRoute verifySig signAccess now st (some tok)).1.accessToken.isSome = true ↔
        verifySig tok = true ∧
        ∃ sess, st.sessions.find? (fun s => s.refreshToken == tok) = some sess ∧
          ¬ sess.expiresAt < now)
    ∧ (st.sessions.find? (fun s => s.refreshToken == tok) = none →
        (refreshRoute verifySig signAccess now st (some tok)).1.status = 401 ∧
        (refreshRoute verifySig signAccess now st (some tok)).1.accessToken = none) := by
  unfold refreshRoute
  cases hv : verifySig tok with
  | false => simp [hv]
  | true =>
    cases hf : st.sessions.find? (fun s => s.refreshToken == tok) with
    | none => simp [hv, hf]
    | some sess =>
      cases hexp : decide (sess.expiresAt < now) with
      | true =>
        have hlt : sess.expiresAt < now := of_decide_eq_true hexp
        simp [hv, hf, hexp, hlt]
      | false =>
        have hnlt : ¬ sess.expiresAt < now := of_decide_eq_false hexp
        have hmem : sess ∈ st.sessions := List.mem_of_find?_eq_some hf
        obtain ⟨u, hu, hid⟩ := hfk sess hmem
        cases huf : st.users.find? (fun x => x.id == sess.userId) with
        | none =>
          exfalso
          have hnone := List.find?_eq_none.mp huf u hu
          simp [hid] at hnone
        | some user =>
          simp [hv, hf, hexp, huf, hnlt]
          exact Nat.le_of_not_lt hnlt

/-- Witness for C8 at a concrete store satisfying the foreign-key
invariant: refreshing leaves the store unchanged. -/
theorem refresh_access_iff_valid_session_witness :
    (refreshRoute (fun _ => true) (fun _ _ => "newat") 0
        ⟨[{ id := 0, email := "a@x.com", passwordHash := "pw123", role := .PATIENT,
            emailVerified := true, accountStatus := .ACTIVE, lastLogin := none,
            firebaseUid := none, profile := .patient { fullName := "A" } }],
         [{ userId := 0, refreshToken := "rt", expiresAt := 5 }], 1⟩ (some "rt")).2 =
      ⟨[{ id := 0, email := "a@x.com", passwordHash := "pw123", role := .PATIENT,
          emailVerified := true, accountStatus := .ACTIVE, lastLogin := none,
          firebaseUid := none, profile := .patient { fullName := "A" } }],
       [{ userId := 0, refreshToken := "rt", expiresAt := 5 }], 1⟩ := by
  exact (refresh_access_iff_valid_session (fun _ => true) (fun _ _ => "newat") 0
    ⟨[{ id := 0, email := "a@x.com", passwordHash := "pw123", role := .PATIENT,
        emailVerified := true, accountStatus := .ACTIVE, lastLogin := none,
        firebaseUid := none, profile := .patient { fullName := "A" } }],
     [{ userId := 0, refreshToken := "rt", expiresAt := 5 }], 1⟩ "rt" (by decide)).1

/-- Reduction of the sync route once the body has parsed and the uid check
has passed: it either returns the existing account unchanged or creates the
new row. -/
theorem syncFirebaseUser_eq (emailOk : String → Bool) (tok : FirebaseToken)
    (st : Store) (r : SyncRequest) (d : SyncData)
    (hp : syncUserSchemaParse emailOk r = some d)
    (huid : d.firebaseUid = tok.uid) :
    syncFirebaseUser emailOk tok st r =
      match st.users.find? (fun u => u.firebaseUid == some d.firebaseUid) with
      | some u => (.alreadySynced u, st)
      | none => (.created (mkSyncUser tok st d), st.addUser (mkSyncUser tok st d)) := by
  unfold syncFirebaseUser
  rw [hp]
  simp only [huid, bne_self_eq_false, Bool.false_eq_true, if_false]

/-- C9: the sync operation is idempotent in its externalUid. When some
account already carries the firebaseUid it is returned unchanged with no
creation and no error; running the operation twice returns the same account
both times (same id), the second run changes nothing, and afterwards
exactly one account (hence exactly one profile) carries the firebaseUid. -/
theorem sync_firebase_user_idempotent (emailOk : String → Bool) (tok : FirebaseToken)
    (st : Store) (r : SyncRequest) (d : SyncData)
    (hp : syncUserSchemaParse emailOk r = some d)
    (huid : d.firebaseUid = tok.uid)
    (huniq : (st.users.filter (fun x => x.firebaseUid == some d.firebaseUid)).length ≤ 1) :
    (∀ u, st.users.find? (fun x => x.firebaseUid == some d.firebaseUid) = some u →
        syncFirebaseUser emailOk tok st r = (.alreadySynced u, st))
    ∧ (syncFirebaseUser emailOk tok (syncFirebaseUser emailOk tok st r).2 r).2 =
        (syncFirebaseUser emailOk tok st r).2
    ∧ (∃ u, (syncFirebaseUser emailOk tok st r).1.account = some u ∧
        (syncFirebaseUser emailOk tok (syncFirebaseUser emailOk tok st r).2 r).1.account
          = some u ∧
        ((syncFirebaseUser emailOk tok st r).2.users.filter
            (fun x => x.firebaseUid == some d.firebaseUid)).length = 1) := by
  rw [syncFirebaseUser_eq emailOk tok st r d hp huid]
  cases hf : st.users.find? (fun u => u.firebaseUid == some d.firebaseUid) with
  | some u =>
    refine ⟨?_, ?_, ?_⟩
    · intro u2 hu2
      obtain rfl := Option.some.inj hu2
      rfl
    · rw [syncFirebaseUser_eq emailOk tok st r d hp huid, hf]
    · refine ⟨u, rfl, ?_, ?_⟩
      · rw [syncFirebaseUser_eq emailOk tok st r d hp huid, hf]
        rfl
      · refine Nat.le_antisymm huniq ?_
        have hpu := List.find?_some hf
        have humem : u ∈ st.users := List.mem_of_find?_eq_some hf
        have hmemf : u ∈ st.users.filter (fun x => x.firebaseUid == some d.firebaseUid) :=
          List.mem_filter.mpr ⟨humem, hpu⟩
        exact List.length_pos.mpr (List.ne_nil_of_mem hmemf)
  | none =>
    have hnil : st.users.filter (fun x => x.firebaseUid == some d.firebaseUid) = [] := by
      rw [List.filter_eq_nil_iff]
      intro a ha
      exact List.find?_eq_none.mp hf a ha
    have hpnew : ((mkSyncUser tok st d).firebaseUid == some d.firebaseUid) = true := by
      simp [mkSyncUser]
    have hsecond : (st.addUser (mkSyncUser tok st d)).users.find?
        (fun u => u.firebaseUid == some d.firebaseUid) = some (mkSyncUser tok st d) := by
      show ((st.users ++ [mkSyncUser tok st d]).find?
        (fun u => u.firebaseUid == some d.firebaseUid)) = some (mkSyncUser tok st d)
      rw [List.find?_append, hf]
      simp [hpnew]
    refine ⟨?_, ?_, ?_⟩
    · intro u2 hu2
      cases hu2
    · rw [syncFirebaseUser_eq emailOk tok (st.addUser (mkSyncUser tok st d)) r d hp huid,
        hsecond]
    · refine ⟨mkSyncUser tok st d, rfl, ?_, ?_⟩
      · rw [syncFirebaseUser_eq emailOk tok (st.addUser (mkSyncUser tok st d)) r d hp huid,
          hsecond]
        rfl
      · show ((st.users ++ [mkSyncUser tok st d]).filter
          (fun x => x.firebaseUid == some d.firebaseUid)).length = 1
        rw [List.filter_append, hnil]
        simp [hpnew]

/-- Witness for C9: syncing a concrete doctor twice into an empty store
returns the same freshly created account both times and leaves exactly one
row carrying the firebaseUid. -/
theorem sync_firebase_user_idempotent_witness :
    (syncFirebaseUser (fun _ => true) ⟨"fb1", "d@h.com", true⟩
        ((syncFirebaseUser (fun _ => true) ⟨"fb1", "d@h.com", true⟩ ⟨[], [], 0⟩
          { firebaseUid := "fb1", email := "d@h.com", role := "DOCTOR", fullName := "Doc",
            specialization := none, licenseNumber := none, medicalCouncil := none,
            organizationId := none, employeeId := none, department := none }).2)
        { firebaseUid := "fb1", email := "d@h.com", role := "DOCTOR", fullName := "Doc",
          specialization := none, licenseNumber := none, medicalCouncil := none,
          organizationId := none, employeeId := none, department := none }).2 =
      (syncFirebaseUser (fun _ => true) ⟨"fb1", "d@h.com", true⟩ ⟨[], [], 0⟩
        { firebaseUid := "fb1", email := "d@h.com", role := "DOCTOR", fullName := "Doc",
          specialization := none, licenseNumber := none, medicalCouncil := none,
          organizationId := none, employeeId := none, department := none }).2 := by
  exact (sync_firebase_user_idempotent (fun _ => true) ⟨"fb1", "d@h.com", true⟩ ⟨[], [], 0⟩
    { firebaseUid := "fb1", email := "d@h.com", role := "DOCTOR", fullName := "Doc",
      specialization := none, licenseNumber := none, medicalCouncil := none,
      organizationId := none, employeeId := none, department := none }
    { firebaseUid := "fb1", email := "d@h.com", role := .DOCTOR, fullName := "Doc",
      specialization := none, licenseNumber := none, medicalCouncil := none,
      organizationId := none, employeeId := none, department := none }
    (by decide) (by decide) (by decide)).2.1

/-- A character the mobile email regex accepts in the local part
(`[a-zA-Z0-9._%+-]`). -/
def isLocalChar (c : Char) : Bool :=
  c.isAlphanum || c == '.' || c == '_' || c == '%' || c == '+' || c == '-'

/-- A character the mobile email regex accepts in the domain part
(`[a-zA-Z0-9.-]`). -/
def isDomainChar (c : Char) : Bool :=
  c.isAlphanum || c == '.' || c == '-'

/-- Join character-list segments with a dot between them. -/
def joinDots : List (List Char) → List Char
  | [] => []
  | [l] => l
  | l :: ls => l ++ '.' :: joinDots ls

/-- Mobile `AuthService._isValidEmail`, the regex
`[a-zA-Z0-9._%+-]+@[a-zA-Z0-9.-]+[.][a-zA-Z]` with the final label at least
two letters, anchored on both ends: exactly one at-sign; a nonempty local
part of local characters; a domain consisting of a nonempty run of domain
characters, a dot, and a final label of at least two letters (the trailing
label is dot-free, so it is the part after the domain's last dot). -/
def isValidEmail (email : String) : Bool :=
  match splitChar '@' email with
  | [loc, dom] =>
    let parts := splitCharList '.' dom.data
    let tld := parts.getLastD []
    let head := joinDots parts.dropLast
    decide (0 < loc.data.length) && loc.data.all isLocalChar &&
    decide (2 ≤ parts.length) && decide (0 < head.length) && head.all isDomainChar &&
    decide (2 ≤ tld.length) && tld.all Char.isAlpha
  | _ => false

/-- A Firebase Auth account: email/password credential plus the
email-verified flag, with the uid the provider assigned. -/
structure AuthUser where
  uid : Nat
  email : String
  password : String
  emailVerified : Bool
deriving DecidableEq, Repr

/-- A document of the `users` Firestore collection; every field except the
document id is optional because a merge-set can create a document carrying
only some of them. -/
structure UserDoc where
  uid : Nat
  email : Option String
  role : Option String
  emailVerified : Option Bool
  accountStatus : Option String
deriving DecidableEq, Repr

/-- The mobile app's world: the two credential-registry collections,
Firebase Auth accounts, the `users` collection, the three per-role
collections (document ids only), and the uid counter. -/
structure MobileStore where
  verifiedDoctors : List DoctorRecord
  verifiedOrgs : List OrganizationRecord
  authUsers : List AuthUser
  users : List UserDoc
  patientDocs : List Nat
  doctorDocs : List Nat
  staffDocs : List Nat
  nextUid : Nat
deriving DecidableEq, Repr

/-- Firestore `set` without merge on the `users` collection: replace the
document with this uid, or add it. -/
def setUserDoc (docs : List UserDoc) (doc : UserDoc) : List UserDoc :=
  if docs.any (fun d => d.uid == doc.uid) then
    docs.map (fun d => if d.uid == doc.uid then doc else d)
  else docs ++ [doc]

/-- Firestore `set` with `merge: true` on the `users` collection: update the
named fields (`f`) of the document with this uid, or create a document
holding only them (`blank`). -/
def setMergeUserDoc (docs : List UserDoc) (uid : Nat) (f : UserDoc → UserDoc)
    (blank : UserDoc) : List UserDoc :=
  if docs.any (fun d => d.uid == uid) then
    docs.map (fun d => if d.uid == uid then f d else d)
  else docs ++ [blank]

/-- Arguments of the mobile `AuthService.signup` call. -/
structure DartSignupArgs where
  email : String
  password : String
  role : String
  licenseNumber : Option String
  fullName : Option String
  medicalCouncil : Option String
  organizationId : Option String
  employeeId : Option String
deriving DecidableEq, Repr

/-- The errors the mobile signup throws. -/
inductive DartSignupError
  | invalidEmail
  | missingDoctorFields
  | doctorVerificationFailed
  | missingStaffFields
  | staffVerificationFailed
  | weakPassword
  | emailInUse
deriving DecidableEq, Repr

/-- The creation tail of the mobile signup once verification has passed:
`createUserWithEmailAndPassword` (which rejects passwords shorter than 6
and already-registered emails), then the `users` document with
accountStatus "pending_email_verification", then the role-specific
collection document. -/
def dartCreateUser (st : MobileStore) (a : DartSignupArgs) :
    Option DartSignupError × MobileStore :=
  if decide (a.password.length < 6) then (some .weakPassword, st)
  else if st.authUsers.any (fun u => u.email == a.email) then (some .emailInUse, st)
  else
    let uid := st.nextUid
    let st1 := { st with
      authUsers := st.authUsers ++
        [{ uid := uid, email := a.email, password := a.password, emailVerified := false }],
      users := setUserDoc st.users
        { uid := uid, email := some a.email, role := some a.role,
          emailVerified := some false, accountStatus := some "pending_email_verification" },
      nextUid := st.nextUid + 1 }
    let st2 :=
      if a.role == "patient" then { st1 with patientDocs := st1.patientDocs ++ [uid] }
      else if a.role == "doctor" then { st1 with doctorDocs := st1.doctorDocs ++ [uid] }
      else if a.role == "staff" then { st1 with staffDocs := st1.staffDocs ++ [uid] }
      else st1
    (none, st2)

/-- Mobile `AuthService.signup`: validate the email format; a doctor must
supply licenseNumber, fullName and medicalCouncil and pass
`verifyDoctorLicense`; a staff member must supply organizationId and
employeeId and pass `verifyStaffOrganization`; any other role string
(patient included) skips verification; only after these gates is anything
created. -/
def dartSignup (st : MobileStore) (a : DartSignupArgs) :
    Option DartSignupError × MobileStore :=
  if !(isValidEmail a.email) then (some .invalidEmail, st)
  else if a.role == "doctor" then
    match a.licenseNumber, a.fullName, a.medicalCouncil with
    | some ln, some fn, some mc =>
      if !(verifyDoctorLicense st.verifiedDoctors ln fn mc) then
        (some .doctorVerificationFailed, st)
      else dartCreateUser st a
    | _, _, _ => (some .missingDoctorFields, st)
  else if a.role == "staff" then
    match a.organizationId, a.employeeId with
    | some oid, some eid =>
      if !(verifyStaffOrganization st.verifiedOrgs a.email oid eid) then
        (some .staffVerificationFailed, st)
      else dartCreateUser st a
    | _, _ => (some .missingStaffFields, st)
  else dartCreateUser st a

/-- The errors the mobile login throws (mapped from Firebase error codes). -/
inductive DartLoginError
  | invalidEmail
  | userNotFound
  | wrongPassword
  | emailNotVerified
deriving DecidableEq, Repr

/-- Result of the mobile login: an error, or the role read back from the
user document (null when the document carries no role). -/
inductive DartLoginResult
  | err : DartLoginError → DartLoginResult
  | ok : Option String → DartLoginResult
deriving DecidableEq, Repr

/-- Mobile `AuthService.login`: validate the email format; authenticate with
`signInWithEmailAndPassword`; an unverified email records a
lastLoginAttempt timestamp (a merge-set creating an otherwise empty
document when none exists) and fails; a verified email merge-sets the user
document to emailVerified true and accountStatus "active" (creating it when
absent) and returns the document's role field, defaulting to "patient" when
the document is missing. -/
def dartLogin (st : MobileStore) (email password : String) :
    DartLoginResult × MobileStore :=
  if !(isValidEmail email) then (.err .invalidEmail, st)
  else
    match st.authUsers.find? (fun u => u.email == email) with
    | none => (.err .userNotFound, st)
    | some u =>
      if u.password != password then (.err .wrongPassword, st)
      else if !u.emailVerified then
        let usersA := setMergeUserDoc st.users u.uid (fun d => d) { uid := u.uid, email := none, role := none, emailVerified := none, accountStatus := none }
        (.err .emailNotVerified, { st with users := usersA })
      else
        let users2 := setMergeUserDoc st.users u.uid (fun d => { d with emailVerified := some true, accountStatus := some "active" }) { uid := u.uid, email := none, role := none, emailVerified := some true, accountStatus := some "active" }
        match users2.find? (fun d => d.uid == u.uid) with
        | some d => (.ok d.role, { st with users := users2 })
        | none => (.ok (some "patient"), { st with users := users2 })

/-- After a merge-set keyed by `uid`, a document with that uid is found, and
it is either the freshly created `blank` or `f` applied to a previous
document with that uid. -/
theorem setMergeUserDoc_find (docs : List UserDoc) (uid : Nat) (f : UserDoc → UserDoc)
    (blank : UserDoc) (hb : blank.uid = uid) (hfid : ∀ d, (f d).uid = d.uid) :
    ∃ d0, (setMergeUserDoc docs uid f blank).find? (fun x => x.uid == uid) = some d0 ∧
      (d0 = blank ∨ ∃ d1, d1 ∈ docs ∧ d1.uid = uid ∧ d0 = f d1) := by
  unfold setMergeUserDoc
  cases hany : docs.any (fun d => d.uid == uid) with
  | false =>
    simp only [Bool.false_eq_true, if_false]
    refine ⟨blank, ?_, Or.inl rfl⟩
    rw [List.find?_append]
    have hnone : docs.find? (fun x => x.uid == uid) = none := by
      rw [List.find?_eq_none]
      intro a ha
      have := List.any_eq_false.mp hany a ha
      simpa using this
    rw [hnone]
    simp [hb]
  | true =>
    simp only [if_true]
    have hgeq : ((fun x : UserDoc => x.uid == uid) ∘
        fun d : UserDoc => if (d.uid == uid) = true then f d else d) =
        (fun d : UserDoc => d.uid == uid) := by
      funext d
      by_cases hd : (d.uid == uid) = true
      · simp only [Function.comp_apply, hd, if_true]
        rw [hfid d]
        exact hd
      · simp only [Function.comp_apply, hd, Bool.false_eq_true, if_false]
    cases hd1find : docs.find? (fun d => d.uid == uid) with
    | none =>
      exfalso
      obtain ⟨d1, hmem, hp1⟩ := List.any_eq_true.mp hany
      exact absurd hp1 (by simpa using List.find?_eq_none.mp hd1find d1 hmem)
    | some d1 =>
      have hp1 := List.find?_some hd1find
      have hmem := List.mem_of_find?_eq_some hd1find
      refine ⟨f d1, ?_, Or.inr ⟨d1, hmem, by simpa using hp1, rfl⟩⟩
      rw [List.find?_map, hgeq, hd1find]
      have hp2 : d1.uid = uid := by simpa using hp1
      simp [hp2]

/-- C10: whenever authentication succeeds in the mobile login with a
verified email, the user document is merge-set to accountStatus "active"
and emailVerified true, unconditionally — for every role and every prior
accountStatus, a pending doctor or staff document included. -/
theorem dart_login_forces_active_status (st : MobileStore) (email password : String)
    (u : AuthUser)
    (hv : isValidEmail email = true)
    (hf : st.authUsers.find? (fun x => x.email == email) = some u)
    (hpw : u.password = password)
    (hver : u.emailVerified = true) :
    ∃ d, (dartLogin st email password).2.users.find? (fun x => x.uid == u.uid) = some d ∧
      d.accountStatus = some "active" ∧ d.emailVerified = some true := by
  obtain ⟨d0, hfind, hcase⟩ := setMergeUserDoc_find st.users u.uid
    (fun d => { d with emailVerified := some true, accountStatus := some "active" })
    { uid := u.uid, email := none, role := none, emailVerified := some true,
      accountStatus := some "active" } rfl (fun d => rfl)
  unfold dartLogin
  simp only [hv, Bool.not_true, Bool.false_eq_true, if_false, hf, hpw, bne_self_eq_false,
    hver, Bool.not_true]
  rw [hfind]
  exact ⟨d0, hfind, by rcases hcase with rfl | ⟨d1, _, _, rfl⟩ <;> exact ⟨rfl, rfl⟩⟩

/-- Witness for C10: a concrete verified doctor account whose user document
was still pending ends up active after login. -/
theorem dart_login_forces_active_status_witness :
    ∃ d, (dartLogin
        ⟨[], [], [{ uid := 0, email := "doc@h.com", password := "secret1", emailVerified := true }],
         [{ uid := 0, email := some "doc@h.com", role := some "doctor",
            emailVerified := some false, accountStatus := some "pending_email_verification" }],
         [], [0], [], 1⟩
        "doc@h.com" "secret1").2.users.find? (fun x => x.uid == 0) = some d ∧
      d.accountStatus = some "active" ∧ d.emailVerified = some true := by
  exact dart_login_forces_active_status
    ⟨[], [], [{ uid := 0, email := "doc@h.com", password := "secret1", emailVerified := true }],
     [{ uid := 0, email := some "doc@h.com", role := some "doctor",
        emailVerified := some false, accountStatus := some "pending_email_verification" }],
     [], [0], [], 1⟩
    "doc@h.com" "secret1"
    { uid := 0, email := "doc@h.com", password := "secret1", emailVerified := true }
    (by decide) (by decide) (by decide) (by decide)

/-- C4: a doctor or staff signup whose verification check fails is rejected
with the store left unchanged and no account created, in both modes: the
backend domain-allow-list mode (the gate runs before `prisma.user.create`)
and the mobile credential-registry mode (the throw happens before any
Firebase Auth or Firestore write). -/
theorem failed_verification_no_partial_state :
    (∀ (emailOk : String → Bool) (hash : String → String) (env : DomainEnv)
        (st : Store) (r : SignupRequest) (d : SignupData),
      signupSchemaParse emailOk r = some d →
      (d.role = .DOCTOR ∨ d.role = .STAFF) →
      isVerifiedDomain env d.email d.role = false →
      (signupRoute emailOk hash env st r).2 = st ∧
        ∀ u, (signupRoute emailOk hash env st r).1 ≠ .created u)
    ∧ (∀ (st : MobileStore) (a : DartSignupArgs) (ln fn mc : String),
      a.role = "doctor" → a.licenseNumber = some ln → a.fullName = some fn →
      a.medicalCouncil = some mc →
      verifyDoctorLicense st.verifiedDoctors ln fn mc = false →
      dartSignup st a = (some .doctorVerificationFailed, st) ∨
        dartSignup st a = (some .invalidEmail, st))
    ∧ (∀ (st : MobileStore) (a : DartSignupArgs) (oid eid : String),
      a.role = "staff" → a.organizationId = some oid → a.employeeId = some eid →
      verifyStaffOrganization st.verifiedOrgs a.email oid eid = false →
      dartSignup st a = (some .staffVerificationFailed, st) ∨
        dartSignup st a = (some .invalidEmail, st)) := by
  refine ⟨?_, ?_, ?_⟩
  · intro emailOk hash env st r d hp hrole hv
    have hcond : ((d.role == Role.DOCTOR || d.role == Role.STAFF) &&
        !(isVerifiedDomain env d.email d.role)) = true := by
      rcases hrole with h | h <;> rw [h] at hv <;> simp [h, hv]
    unfold signupRoute
    rw [hp]
    cases he : st.users.any (fun x => x.email == d.email) with
    | true =>
      simp only [he, if_true]
      exact ⟨trivial, fun u h => by cases h⟩
    | false =>
      simp only [he, Bool.false_eq_true, if_false, hcond, if_true]
      exact ⟨trivial, fun u h => by cases h⟩
  · intro st a ln fn mc hrole hln hfn hmc hver
    unfold dartSignup
    cases hvE : isValidEmail a.email with
    | false =>
      right
      simp [hvE]
    | true =>
      left
      simp only [hvE, Bool.not_true, Bool.false_eq_true, if_false, hrole,
        beq_self_eq_true, if_true, hln, hfn, hmc, hver, Bool.not_false]
  · intro st a oid eid hrole hoid heid hver
    unfold dartSignup
    cases hvE : isValidEmail a.email with
    | false =>
      right
      simp [hvE]
    | true =>
      left
      simp only [hvE, Bool.not_true, Bool.false_eq_true, if_false, hrole,
        (by decide : (("staff" : String) == "doctor") = false),
        (by decide : (("staff" : String) == "staff") = true), if_true,
        hoid, heid, hver, Bool.not_false]

/-- Witness for C4: a concrete doctor signup against an empty allow-list is
rejected with the store unchanged. -/
theorem failed_verification_no_partial_state_witness :
    (signupRoute (fun _ => true) (fun p => p) ⟨"", ""⟩ ⟨[], [], 0⟩
      { email := "a@b.com", password := "secret", role := "DOCTOR", fullName := "Dr",
        specialization := none, licenseNumber := none, medicalCouncil := none,
        organizationId := none, employeeId := none, department := none }).2 =
      ⟨[], [], 0⟩ := by
  exact (failed_verification_no_partial_state.1 (fun _ => true) (fun p => p) ⟨"", ""⟩
    ⟨[], [], 0⟩
    { email := "a@b.com", password := "secret", role := "DOCTOR", fullName := "Dr",
      specialization := none, licenseNumber := none, medicalCouncil := none,
      organizationId := none, employeeId := none, department := none }
    { email := "a@b.com", password := "secret", role := .DOCTOR, fullName := "Dr",
      specialization := none, licenseNumber := none, medicalCouncil := none,
      organizationId := none, employeeId := none, department := none }
    (by decide) (Or.inl rfl) (by decide)).1

/-- Counterexample to C5 as stated: the backend `signupSchema` declares every
role-conditional field `.optional()`, so a DOCTOR signup missing both
licenseNumber and medicalCouncil and a STAFF signup missing organizationId,
employeeId and department both pass validation. -/
theorem signup_validation_optional_fields_cex :
    (signupSchemaParse (fun _ => true)
      { email := "doc@h.com", password := "secret1", role := "DOCTOR", fullName := "Dr A",
        specialization := none, licenseNumber := none, medicalCouncil := none,
        organizationId := none, employeeId := none, department := none }).isSome = true ∧
    (signupSchemaParse (fun _ => true)
      { email := "st@h.com", password := "secret1", role := "STAFF", fullName := "St A",
        specialization := none, licenseNumber := none, medicalCouncil := none,
        organizationId := none, employeeId := none, department := none }).isSome = true := by
  exact ⟨by decide, by decide⟩

/-- C5 (amended): the backend schema rejects a failing email check, a
password shorter than 6 and a role outside the enum, but its validation
outcome is independent of all the role-conditional fields (they are
optional, not required), with a missing specialization defaulted to
"General Medicine" at profile creation; separately, the mobile client's own
signup rejects doctor requests missing licenseNumber, fullName or
medicalCouncil and staff requests missing organizationId or employeeId. -/
theorem signup_validation_amended :
    (∀ (emailOk : String → Bool) (r : SignupRequest), emailOk r.email = false →
        signupSchemaParse emailOk r = none)
    ∧ (∀ (emailOk : String → Bool) (r : SignupRequest), r.password.length < 6 →
        signupSchemaParse emailOk r = none)
    ∧ (∀ (emailOk : String → Bool) (r : SignupRequest), parseRole r.role = none →
        signupSchemaParse emailOk r = none)
    ∧ (∀ (emailOk : String → Bool) (r : SignupRequest),
        (signupSchemaParse emailOk r).isSome =
          (signupSchemaParse emailOk { r with specialization := none, licenseNumber := none, medicalCouncil := none, organizationId := none, employeeId := none, department := none }).isSome)
    ∧ (∀ (hash : String → String) (st : Store) (d : SignupData),
        d.role = .DOCTOR → d.specialization = none →
        (mkSignupUser hash st d).profile = .doctor { fullName := d.fullName, specialization := "General Medicine", licenseNumber := d.licenseNumber, medicalCouncil := d.medicalCouncil, verificationStatus := .PENDING })
    ∧ (∀ (st : MobileStore) (a : DartSignupArgs), a.role = "doctor" →
        (a.licenseNumber = none ∨ a.fullName = none ∨ a.medicalCouncil = none) →
        isValidEmail a.email = true →
        dartSignup st a = (some .missingDoctorFields, st))
    ∧ (∀ (st : MobileStore) (a : DartSignupArgs), a.role = "staff" →
        (a.organizationId = none ∨ a.employeeId = none) →
        isValidEmail a.email = true →
        dartSignup st a = (some .missingStaffFields, st)) := by
  refine ⟨?_, ?_, ?_, ?_, ?_, ?_, ?_⟩
  · intro emailOk r h
    unfold signupSchemaParse
    cases hr : parseRole r.role with
    | none => rfl
    | some role => simp [h]
  · intro emailOk r h
    unfold signupSchemaParse
    cases hr : parseRole r.role with
    | none => rfl
    | some role => simp [Nat.not_le.mpr h]
  · intro emailOk r h
    unfold signupSchemaParse
    rw [h]
  · intro emailOk r
    unfold signupSchemaParse
    cases hr : parseRole r.role with
    | none => simp [hr]
    | some role =>
      by_cases hc : (emailOk r.email && decide (6 ≤ r.password.length) &&
          decide (2 ≤ r.fullName.length)) = true
      · simp [hr, hc]
      · simp [hr, hc]
  · intro hash st d h1 h2
    simp [mkSignupUser, mkProfile, h1, h2]
  · intro st a hrole hmiss hvE
    unfold dartSignup
    simp only [hvE, Bool.not_true, Bool.false_eq_true, if_false, hrole,
      beq_self_eq_true, if_true]
    rcases hmiss with h | h | h
    · rw [h]
    · cases hln : a.licenseNumber with
      | none => rfl
      | some ln => rw [h]
    · cases hln : a.licenseNumber with
      | none => rfl
      | some ln =>
        cases hfn : a.fullName with
        | none => rfl
        | some fn => rw [h]
  · intro st a hrole hmiss hvE
    unfold dartSignup
    simp only [hvE, Bool.not_true, Bool.false_eq_true, if_false, hrole,
      (by decide : (("staff" : String) == "doctor") = false),
      (by decide : (("staff" : String) == "staff") = true), if_true]
    rcases hmiss with h | h
    · rw [h]
    · cases hoid : a.organizationId with
      | none => rfl
      | some oid => rw [h]

/-- Witness for C5 (amended): a concrete signup body with a 3-character
password is rejected by the schema. -/
theorem signup_validation_amended_witness :
    signupSchemaParse (fun _ => true)
      { email := "p@x.com", password := "abc", role := "PATIENT", fullName := "Pat",
        specialization := none, licenseNumber := none, medicalCouncil := none,
        organizationId := none, employeeId := none, department := none } = none := by
  exact signup_validation_amended.2.1 (fun _ => true)
    { email := "p@x.com", password := "abc", role := "PATIENT", fullName := "Pat",
      specialization := none, licenseNumber := none, medicalCouncil := none,
      organizationId := none, employeeId := none, department := none } (by decide)

end HealthApp